import Mathlib

/-!
Verification development for the ATATScraper repository: a synthetic
monitoring function that loads a LEGO product page in a headless browser,
extracts schema.org availability/price metadata, captures screenshot
evidence, uploads it to Appwrite storage and reports a structured result.

The repository consists of several redundant variants of the same script.
We shallowly embed the variants the claims cite:
- `mainV1` : the first handler in src/src/main.js (lines 11-239), whose
  `getProductData` retries page processing recursively up to MAX_RETRIES.
- `mainV2` : the second handler in src/src/main.js (lines 282-552), which
  applies a `retry` helper independently around each pipeline step.
- `mainP2` : the handler in src/unnamed/part_002, which has no retries and
  swallows extraction failures.
- `missingVarsP5` : the environment-variable check of src/unnamed/part_005.

Effectful collaborators (puppeteer, Appwrite storage, the clock) are
modelled by oracles: records of functions giving the outcome of each
awaited fallible operation, indexed by attempt number where the source
retries.  Infrastructure calls the source treats as infallible
(setUserAgent, setRequestInterception, setCookie, page.close) are modelled
as always succeeding; they are not failure points the spec or the claims
consider.  Each embedded run also produces an event trace (or a record of
per-step invocation counts) used to state cleanup and ordering properties.
-/

namespace ATAT

/-- Chars of a prefix check: embeds the anchored comparison underlying the
JavaScript `String.prototype.includes` search.  `List.isPrefixOf` from core
is used directly. -/
def containsSub (sub : List Char) : List Char → Bool
  | [] => sub.isEmpty
  | c :: t => List.isPrefixOf sub (c :: t) || containsSub sub t

/-- Embedding of JavaScript `haystack.includes(needle)`: substring
containment on the underlying character sequences. -/
def strIncludes (s sub : String) : Bool := containsSub sub.data s.data

/-- Embedding of JavaScript `String.prototype.toLowerCase` restricted to the
ASCII range the scraper's vocabulary uses: each character is lower-cased
individually. -/
def lowerStr (s : String) : String := String.mk (s.data.map Char.toLower)

/-- JavaScript `Error` value: a message and a stack trace. -/
structure JsError where
  message : String
  stack : String
deriving DecidableEq, Repr

/-- Embedding of `new Error(msg)`: the runtime materialises a stack trace
whose text begins with the message; its exact contents are opaque, so we
model it as a string derived from the message. -/
def newError (msg : String) : JsError :=
  { message := msg, stack := "Error: " ++ msg }

/-- The process environment slice the scraper reads.  A variable that is
unset is `none`; a set variable carries its (possibly empty) string. -/
structure Env where
  APPWRITE_ENDPOINT : Option String
  APPWRITE_PROJECT_ID : Option String
  APPWRITE_API_KEY : Option String
  APPWRITE_BUCKET_ID : Option String
  PUPPETEER_EXECUTABLE_PATH : Option String
  NODE_ENV : Option String
deriving DecidableEq, Repr

/-- JavaScript truthiness of an environment-variable value: `undefined` and
the empty string are falsy, every other string is truthy. -/
def truthy : Option String → Bool
  | none => false
  | some s => !s.isEmpty

/-- The `requiredVars` object literal of src/src/main.js lines 16-21, in
declaration order, as `Object.entries` observes it. -/
def requiredEntries (env : Env) : List (String × Option String) :=
  [("APPWRITE_ENDPOINT", env.APPWRITE_ENDPOINT),
   ("APPWRITE_PROJECT_ID", env.APPWRITE_PROJECT_ID),
   ("APPWRITE_API_KEY", env.APPWRITE_API_KEY),
   ("APPWRITE_BUCKET_ID", env.APPWRITE_BUCKET_ID)]

/-- src/src/main.js lines 23-25: `Object.entries(requiredVars)
.filter(([_, value]) => !value).map(([key]) => key)`. -/
def missingVars (env : Env) : List String :=
  ((requiredEntries env).filter (fun kv => !truthy kv.2)).map (fun kv => kv.1)

/-- The four required key names of src/unnamed/part_005 line 18. -/
def requiredKeys : List String :=
  ["APPWRITE_ENDPOINT", "APPWRITE_PROJECT_ID", "APPWRITE_API_KEY", "APPWRITE_BUCKET_ID"]

/-- Dynamic lookup `process.env[key]` restricted to the keys the scraper
mentions. -/
def envLookup (env : Env) : String → Option String
  | "APPWRITE_ENDPOINT" => env.APPWRITE_ENDPOINT
  | "APPWRITE_PROJECT_ID" => env.APPWRITE_PROJECT_ID
  | "APPWRITE_API_KEY" => env.APPWRITE_API_KEY
  | "APPWRITE_BUCKET_ID" => env.APPWRITE_BUCKET_ID
  | "PUPPETEER_EXECUTABLE_PATH" => env.PUPPETEER_EXECUTABLE_PATH
  | "NODE_ENV" => env.NODE_ENV
  | _ => none

/-- src/unnamed/part_005 line 19: `envVars.filter(key => !process.env[key])`. -/
def missingVarsP5 (env : Env) : List String :=
  requiredKeys.filter (fun k => !truthy (envLookup env k))

/-- src/src/main.js line 8 (first handler). -/
def MAX_RETRIES : Nat := 3

/-- src/src/main.js line 9 (first handler): milliseconds. -/
def RETRY_DELAY : Nat := 5000

/-- src/src/main.js line 248 (second handler). -/
def RETRY_ATTEMPTS : Nat := 3

/-- src/src/main.js line 249 (second handler): milliseconds. -/
def RETRY_DELAY_V2 : Nat := 1000

/-- The loop body of the `retry` helper, src/src/main.js lines 257-267.
`i` is the current loop index; the second argument is the number of loop
iterations still permitted (so the source's `i === attempts - 1` test is
the test that it is 0 after this iteration).  Returns the value the helper
produces (`none` models the `undefined` a zero-iteration loop returns),
the number of invocations of `operation`, and the list of delays slept. -/
def retryFrom {α : Type} (op : Nat → Except JsError α) (delay : Nat) :
    Nat → Nat → Option (Except JsError α) × Nat × List Nat
  | _, 0 => (none, 0, [])
  | i, r + 1 =>
    match op i with
    | .ok a => (some (.ok a), 1, [])
    | .error e =>
      if r = 0 then
        (some (.error e), 1, [])
      else
        let res := retryFrom op delay (i + 1) r
        (res.1, res.2.1 + 1, delay :: res.2.2)

/-- The `retry` helper of src/src/main.js lines 257-267: run `op` up to
`attempts` times, sleeping `delay` between consecutive invocations, and
rethrow the final error on exhaustion. -/
def retry {α : Type} (op : Nat → Except JsError α) (attempts delay : Nat) :
    Option (Except JsError α) × Nat × List Nat :=
  retryFrom op delay 0 attempts

/-- The HTTP response puppeteer's `page.goto` resolves with. -/
structure NavResponse where
  status : Nat
  statusText : String
deriving DecidableEq, Repr

/-- The object returned from `getProductData` on success,
src/src/main.js lines 159-165. -/
structure ProductData where
  isAvailable : Bool
  availability : String
  price : String
  screenshotId : String
  timestamp : String
deriving DecidableEq, Repr

/-- src/src/main.js line 160: `availability.toLowerCase().includes('instock')
|| availability.toLowerCase().includes('backorder')`. -/
def isAvailableOf (availability : String) : Bool :=
  strIncludes (lowerStr availability) "instock" ||
    strIncludes (lowerStr availability) "backorder"

/-- src/unnamed/part_002 lines 168-169 (also the second main.js handler,
lines 447-448): the same test with the two substrings checked in the other
order. -/
def isAvailableP2 (availability : String) : Bool :=
  strIncludes (lowerStr availability) "backorder" ||
    strIncludes (lowerStr availability) "instock"

/-- Observable events of a run of the first main.js handler.  Each event
records that the corresponding collaborator call was issued (indexed by the
`getProductData` attempt number where applicable), regardless of the call's
outcome. -/
inductive EventV1 : Type
  | launch : EventV1
  | newPage (attempt : Nat) : EventV1
  | goto (attempt : Nat) : EventV1
  | waitSel (attempt : Nat) : EventV1
  | evalAvail (attempt : Nat) : EventV1
  | evalPrice (attempt : Nat) : EventV1
  | screenshot (attempt : Nat) : EventV1
  | upload (attempt : Nat) : EventV1
  | errScreenshot (attempt : Nat) : EventV1
  | errUpload (attempt : Nat) : EventV1
  | sleep (ms : Nat) : EventV1
  | pageClose (attempt : Nat) : EventV1
  | browserClose : EventV1
deriving DecidableEq, Repr

/-- Outcomes of every fallible collaborator call the first main.js handler
awaits.  Per-attempt calls are indexed by the `getProductData` attempt
number.  `chromiumInstalled` is whether `chromium-browser --version`
succeeds; `installOk` is the outcome of the `apk add` that runs when it
does not.  `timestamp` is the wall clock read on each attempt and
`execTime` the measured `performance.now()` span. -/
structure OracleV1 where
  chromiumInstalled : Bool
  installOk : Except JsError Unit
  launch : Except JsError Unit
  goto : Nat → Except JsError NavResponse
  waitForSelector : Nat → Except JsError Unit
  evalAvailability : Nat → Except JsError String
  evalPrice : Nat → Except JsError String
  screenshot : Nat → Except JsError Unit
  upload : Nat → Except JsError String
  errScreenshot : Nat → Except JsError Unit
  errUpload : Nat → Except JsError String
  timestamp : Nat → String
  execTime : Nat

/-- The `try` block of one `getProductData` attempt, src/src/main.js lines
86-166: navigate, check the HTTP status, wait for the offers selector,
read the availability and price attributes, take and upload a screenshot,
and assemble the `ProductData` value.  The first failure aborts the
block with that error. -/
def attemptBody (o : OracleV1) (i : Nat) : Except JsError ProductData × List EventV1 :=
  match o.goto i with
  | .error e => (.error e, [.goto i])
  | .ok resp =>
    if resp.status ≠ 200 then
      (.error (newError ("HTTP " ++ toString resp.status ++ ": " ++ resp.statusText)),
       [.goto i])
    else
      match o.waitForSelector i with
      | .error e => (.error e, [.goto i, .waitSel i])
      | .ok _ =>
        match o.evalAvailability i with
        | .error e => (.error e, [.goto i, .waitSel i, .evalAvail i])
        | .ok availability =>
          match o.evalPrice i with
          | .error e => (.error e, [.goto i, .waitSel i, .evalAvail i, .evalPrice i])
          | .ok price =>
            match o.screenshot i with
            | .error e =>
              (.error e,
               [.goto i, .waitSel i, .evalAvail i, .evalPrice i, .screenshot i])
            | .ok _ =>
              match o.upload i with
              | .error e =>
                (.error e,
                 [.goto i, .waitSel i, .evalAvail i, .evalPrice i, .screenshot i,
                  .upload i])
              | .ok fileId =>
                (.ok { isAvailable := isAvailableOf availability,
                       availability := availability,
                       price := price,
                       screenshotId := fileId,
                       timestamp := o.timestamp i },
                 [.goto i, .waitSel i, .evalAvail i, .evalPrice i, .screenshot i,
                  .upload i])

/-- The error-evidence block of src/src/main.js lines 171-190: attempt an
error screenshot and, if that succeeded, upload it; any failure of either
call is caught and only logged, so the block yields no value.  The upload
call is issued exactly when the screenshot succeeded. -/
def errorEvidence (o : OracleV1) (i : Nat) : List EventV1 :=
  match o.errScreenshot i with
  | .error _ => [.errScreenshot i]
  | .ok _ => [.errScreenshot i, .errUpload i]

/-- `getProductData` of src/src/main.js lines 82-202, with the recursion
fuelled: the first argument of the match is the current `retryCount`, the
second an upper bound on the remaining recursion depth.  The top-level
entry point `getProductDataV1` supplies fuel `MAX_RETRIES`, which the
guard `retryCount < MAX_RETRIES - 1` makes sufficient, so the fuel-0
branch is unreachable from it.  The `finally` clause closes the attempt's
page after the recursive call of the `catch` branch returns, as the
source's `return getProductData(retryCount + 1)` does. -/
def getProductDataAux (o : OracleV1) :
    Nat → Nat → Except JsError ProductData × List EventV1
  | _, 0 => (.error (newError "out of fuel"), [])
  | i, fuel + 1 =>
    let body := attemptBody o i
    match body.1 with
    | .ok d => (.ok d, .newPage i :: body.2 ++ [.pageClose i])
    | .error e =>
      let ev := errorEvidence o i
      if i < MAX_RETRIES - 1 then
        let res := getProductDataAux o (i + 1) fuel
        (res.1,
         .newPage i :: body.2 ++ ev ++ [.sleep RETRY_DELAY] ++ res.2 ++ [.pageClose i])
      else
        (.error e, .newPage i :: body.2 ++ ev ++ [.pageClose i])

/-- The `getProductData()` call of src/src/main.js line 205. -/
def getProductDataV1 (o : OracleV1) : Except JsError ProductData × List EventV1 :=
  getProductDataAux o 0 MAX_RETRIES

/-- Response body of the first main.js handler: a plain string (missing
configuration, Chromium installation failure), the JSON success payload of
lines 212-216, or the JSON failure payload of lines 226-231 (whose `stack`
key is dropped by `JSON.stringify` when the value is `undefined`). -/
inductive BodyV1 : Type
  | plain (s : String) : BodyV1
  | success (data : ProductData) (executionTimeMs : Nat) : BodyV1
  | failure (error : String) (stack : Option String) (executionTimeMs : Nat) : BodyV1
deriving DecidableEq, Repr

/-- An HTTP-like function response. -/
structure Response (β : Type) where
  statusCode : Nat
  body : β
deriving DecidableEq, Repr

/-- src/src/main.js line 228: the stack is included exactly when
`process.env.NODE_ENV === 'development'`. -/
def stackGate (env : Env) (e : JsError) : Option String :=
  if env.NODE_ENV = some "development" then some e.stack else none

/-- The first main.js handler (lines 11-239): configuration validation,
Chromium provisioning, browser launch, the retried `getProductData`
pipeline, result assembly, and the `finally` clause that closes the
browser whenever one was launched. -/
def mainV1 (env : Env) (o : OracleV1) : Response BodyV1 × List EventV1 :=
  if missingVars env = [] then
    let proceed : Response BodyV1 × List EventV1 :=
      match o.launch with
      | .error e =>
        ({ statusCode := 500,
           body := .failure e.message (stackGate env e) o.execTime }, [.launch])
      | .ok _ =>
        let run := getProductDataV1 o
        match run.1 with
        | .ok d =>
          ({ statusCode := 200, body := .success d o.execTime },
           .launch :: run.2 ++ [.browserClose])
        | .error e =>
          ({ statusCode := 500,
             body := .failure e.message (stackGate env e) o.execTime },
           .launch :: run.2 ++ [.browserClose])
    if o.chromiumInstalled then proceed
    else
      match o.installOk with
      | .error e =>
        ({ statusCode := 500,
           body := .plain ("Chromium installation failed: " ++ e.message) }, [])
      | .ok _ => proceed
  else
    ({ statusCode := 500,
       body := .plain ("Missing environment variables: " ++
         String.intercalate ", " (missingVars env)) }, [])

/-- Outcomes of the fallible collaborator calls of the second main.js
handler (lines 282-552).  The retried steps receive the attempt index the
`retry` helper passes implicitly through repetition. -/
structure OracleV2 where
  listBuckets : Except JsError Unit
  chromiumInstalled : Bool
  installOk : Except JsError Unit
  launch : Except JsError Unit
  gotoNav : Nat → Except JsError Unit
  waitContent : Nat → Except JsError Unit
  evalAvailability : Nat → Except JsError String
  screenshot : Nat → Except JsError Unit
  upload : Nat → Except JsError String
  errScreenshot : Except JsError Unit
  errUpload : Nat → Except JsError String
  execTime : Nat

/-- How many times each retried step of the second main.js handler invoked
its wrapped operation during a run, and whether the error screenshot was
attempted. -/
structure CountsV2 where
  navigate : Nat
  ageGate : Nat
  waitContent : Nat
  extract : Nat
  screenshot : Nat
  upload : Nat
  errUpload : Nat
deriving DecidableEq, Repr

/-- The all-zero count record (a step not reached is never invoked). -/
def CountsV2.zero : CountsV2 :=
  ⟨0, 0, 0, 0, 0, 0, 0⟩

/-- Build a count record positionally: navigation, age gate, content wait,
extraction, screenshot, upload, error upload. -/
def mkCounts (n a w e s u eu : Nat) : CountsV2 :=
  ⟨n, a, w, e, s, u, eu⟩

/-- The value an `await retry(op, attempts, delay, context)` call completes
with, together with the number of invocations of `op`.  The `none` result
of `retry` (a zero-iteration loop returning `undefined`) cannot arise for
the positive literal attempt counts the source passes; it is mapped to an
error so the function stays total. -/
def retryResult {α : Type} (op : Nat → Except JsError α) (attempts delay : Nat) :
    Except JsError α × Nat :=
  match retry op attempts delay with
  | (some r, c, _) => (r, c)
  | (none, c, _) => (.error (newError "retry returned undefined"), c)

/-- The number of operation invocations a full `retry(op, RETRY_ATTEMPTS,
RETRY_DELAY)` run performs: a function of the wrapped operation alone. -/
def retryCalls {α : Type} (op : Nat → Except JsError α) : Nat :=
  (retry op RETRY_ATTEMPTS RETRY_DELAY_V2).2.1

/-- Whether a full `retry` run of the second handler ends in success: again
a function of the wrapped operation alone. -/
def retryOk {α : Type} (op : Nat → Except JsError α) : Bool :=
  match (retry op RETRY_ATTEMPTS RETRY_DELAY_V2).1 with
  | some (.ok _) => true
  | _ => false

/-- The age-gate operation of src/src/main.js lines 395-417: its entire
body is wrapped in an inner `try`/`catch` that catches every error and
only logs it, so the operation the `retry` helper sees never rejects. -/
def ageGateOp : Nat → Except JsError Unit := fun _ => .ok ()

/-- Response body of the second main.js handler and of the part_002
handler: a plain string, the success payload `{isAvailable,
availabilityStatus, executionTimeMs, screenshotFileId}`, or the failure
payload `{error, stack}` (the stack is always present, lines 541-544). -/
inductive BodyV2 : Type
  | plain (s : String) : BodyV2
  | success (isAvailable : Bool) (availabilityStatus : String)
      (executionTimeMs : Nat) (screenshotFileId : String) : BodyV2
  | failure (error : String) (stack : Option String) : BodyV2
deriving DecidableEq, Repr

/-- The retried pipeline inside the `try` block of the second main.js
handler, lines 386-501: navigation, age-gate handling, content wait, a
fixed dynamic-content pause, availability extraction, screenshot and
upload, each wrapped in its own `retry(…, RETRY_ATTEMPTS, RETRY_DELAY)`
call.  The first exhausted step propagates its final error. -/
def pipelineV2 (o : OracleV2) : Except JsError (Bool × String × String) × CountsV2 :=
  let nav := retryResult o.gotoNav RETRY_ATTEMPTS RETRY_DELAY_V2
  match nav.1 with
  | .error e => (.error e, mkCounts nav.2 0 0 0 0 0 0)
  | .ok _ =>
    let age := retryResult ageGateOp RETRY_ATTEMPTS RETRY_DELAY_V2
    match age.1 with
    | .error e => (.error e, mkCounts nav.2 age.2 0 0 0 0 0)
    | .ok _ =>
      let wc := retryResult o.waitContent RETRY_ATTEMPTS RETRY_DELAY_V2
      match wc.1 with
      | .error e => (.error e, mkCounts nav.2 age.2 wc.2 0 0 0 0)
      | .ok _ =>
        let ext := retryResult o.evalAvailability RETRY_ATTEMPTS RETRY_DELAY_V2
        match ext.1 with
        | .error e => (.error e, mkCounts nav.2 age.2 wc.2 ext.2 0 0 0)
        | .ok availabilityMetaContent =>
          let shot := retryResult o.screenshot RETRY_ATTEMPTS RETRY_DELAY_V2
          match shot.1 with
          | .error e => (.error e, mkCounts nav.2 age.2 wc.2 ext.2 shot.2 0 0)
          | .ok _ =>
            let up := retryResult o.upload RETRY_ATTEMPTS RETRY_DELAY_V2
            match up.1 with
            | .error e => (.error e, mkCounts nav.2 age.2 wc.2 ext.2 shot.2 up.2 0)
            | .ok fileId =>
              (.ok (isAvailableP2 availabilityMetaContent, availabilityMetaContent,
                    fileId),
               mkCounts nav.2 age.2 wc.2 ext.2 shot.2 up.2 0)

/-- The second main.js handler (lines 282-552): configuration validation,
Appwrite connection validation, Chromium provisioning, browser launch, the
per-step-retried pipeline, the best-effort error screenshot of the `catch`
block (lines 508-536, whose own failures are swallowed), and the failure
payload that always carries the stack (lines 538-545). -/
def mainV2 (env : Env) (o : OracleV2) : Response BodyV2 × CountsV2 :=
  if missingVars env = [] then
    match o.listBuckets with
    | .error _ =>
      ({ statusCode := 500,
         body := .plain "Failed to establish connection with Appwrite" },
       CountsV2.zero)
    | .ok _ =>
      let proceed : Response BodyV2 × CountsV2 :=
        match o.launch with
        | .error e =>
          ({ statusCode := 500, body := .failure e.message (some e.stack) },
           CountsV2.zero)
        | .ok _ =>
          let run := pipelineV2 o
          match run.1 with
          | .ok (isAvailable, availabilityStatus, fileId) =>
            ({ statusCode := 200,
               body := .success isAvailable availabilityStatus o.execTime fileId },
             run.2)
          | .error e =>
            let counts :=
              match o.errScreenshot with
              | .error _ => run.2
              | .ok _ =>
                { run.2 with
                    errUpload := (retryResult o.errUpload RETRY_ATTEMPTS RETRY_DELAY_V2).2 }
            ({ statusCode := 500, body := .failure e.message (some e.stack) }, counts)
      if o.chromiumInstalled then proceed
      else
        match o.installOk with
        | .error e =>
          ({ statusCode := 500,
             body := .plain ("Chromium installation failed: " ++ e.message) },
           CountsV2.zero)
        | .ok _ => proceed
  else
    ({ statusCode := 500,
       body := .plain ("Missing required Appwrite configuration environment variables: " ++
         String.intercalate ", " (missingVars env)) },
     CountsV2.zero)

/-- Outcomes of the fallible collaborator calls of the part_002 handler,
which retries nothing. -/
structure OracleP2 where
  chromiumInstalled : Bool
  installOk : Except JsError Unit
  launch : Except JsError Unit
  gotoNav : Except JsError Unit
  evalAvailability : Except JsError String
  screenshot : Except JsError Unit
  upload : Except JsError String
  errScreenshot : Except JsError Unit
  errUpload : Except JsError String
  execTime : Nat

/-- The part_002 handler (src/unnamed/part_002 lines 15-263): no retries;
the age-gate block and the content wait swallow their own failures (lines
123-154); extraction failure is caught and only logged, leaving the
initial `''`/`false` values in place (lines 159-175); the error-screenshot
block of the `catch` is best-effort; the failure payload always carries
the stack. -/
def mainP2 (env : Env) (o : OracleP2) : Response BodyV2 :=
  if missingVars env = [] then
    let failWith : JsError → Response BodyV2 := fun e =>
      { statusCode := 500, body := .failure e.message (some e.stack) }
    let proceed : Response BodyV2 :=
      match o.launch with
      | .error e => failWith e
      | .ok _ =>
        match o.gotoNav with
        | .error e => failWith e
        | .ok _ =>
          let extracted : String × Bool :=
            match o.evalAvailability with
            | .ok s => (s, isAvailableP2 s)
            | .error _ => ("", false)
          match o.screenshot with
          | .error e => failWith e
          | .ok _ =>
            match o.upload with
            | .error e => failWith e
            | .ok fileId =>
              { statusCode := 200,
                body := .success extracted.2 extracted.1 o.execTime fileId }
    if o.chromiumInstalled then proceed
    else
      match o.installOk with
      | .error e =>
        { statusCode := 500,
          body := .plain ("Error installing Chromium: " ++ e.message) }
      | .ok _ => proceed
  else
    { statusCode := 500,
      body := .plain ("Missing required Appwrite configuration environment variables: " ++
        String.intercalate ", " (missingVars env)) }

/-! ## Supporting lemmas -/

/-- `containsSub` decides substring containment. -/
theorem containsSub_iff (sub : List Char) :
    ∀ hay : List Char, containsSub sub hay = true ↔ sub <:+: hay := by
  intro hay
  induction hay with
  | nil =>
    constructor
    · intro h
      simp only [containsSub, List.isEmpty_iff] at h
      subst h
      exact List.infix_refl []
    · intro h
      simp only [containsSub, List.isEmpty_iff]
      exact List.eq_nil_of_infix_nil h
  | cons c t ih =>
    simp [containsSub, List.infix_cons_iff, ih, List.isPrefixOf_iff_prefix]

/-- A successful operation outcome at index `k`, preceded by `k` failures,
makes the retry loop stop with that success after `k + 1` invocations and
`k` sleeps. -/
theorem retryFrom_success {α : Type} (op : Nat → Except JsError α) (d : Nat) :
    ∀ (k r i : Nat) (a : α), k < r →
      (∀ j, j < k → ∃ e, op (i + j) = .error e) →
      op (i + k) = .ok a →
      retryFrom op d i r = (some (.ok a), k + 1, List.replicate k d) := by
  intro k
  induction k with
  | zero =>
    intro r i a hr _ hok
    obtain ⟨r', rfl⟩ : ∃ r', r = r' + 1 := ⟨r - 1, by omega⟩
    rw [Nat.add_zero] at hok
    simp [retryFrom, hok]
  | succ k' ih =>
    intro r i a hr hfail hok
    obtain ⟨r', rfl⟩ : ∃ r', r = r' + 1 := ⟨r - 1, by omega⟩
    obtain ⟨e, he⟩ := hfail 0 (Nat.succ_pos k')
    rw [Nat.add_zero] at he
    have hr0 : ¬r' = 0 := by omega
    have hres := ih r' (i + 1) a (by omega)
      (fun j hj => by
        obtain ⟨e', he'⟩ := hfail (j + 1) (by omega)
        exact ⟨e', by rw [← he']; congr 1; omega⟩)
      (by rw [← hok]; congr 1; omega)
    simp [retryFrom, he, hr0, hres, List.replicate_succ]

/-- An operation failing at every index makes the retry loop run all `r`
iterations, sleep `r - 1` times, and stop with the final iteration's
error. -/
theorem retryFrom_exhaust {α : Type} (op : Nat → Except JsError α) (d : Nat)
    (f : Nat → JsError) (hf : ∀ j, op j = .error (f j)) :
    ∀ (r i : Nat), 1 ≤ r →
      retryFrom op d i r =
        (some (.error (f (i + r - 1))), r, List.replicate (r - 1) d) := by
  intro r
  induction r with
  | zero => intro i h; omega
  | succ r' ih =>
    intro i _
    by_cases h0 : r' = 0
    · subst h0
      simp [retryFrom, hf i]
    · have := ih (i + 1) (by omega)
      have harg : i + 1 + r' - 1 = i + (r' + 1) - 1 := by omega
      rw [harg] at this
      have hrep : r' - 1 + 1 = r' := by omega
      have hcons : d :: List.replicate (r' - 1) d = List.replicate r' d := by
        rw [← List.replicate_succ, hrep]
      simp only [retryFrom, hf i, if_neg h0, this, Nat.add_sub_cancel]
      rw [hcons]

/-! ## Claim theorems -/

/-- C1: for every raw availability string, `isAvailable` is true exactly
when the lower-cased string contains the substring "instock" or the
substring "backorder" (lower-casing and substring containment only); the
two source orderings of the test agree, and the spec's examples
"outofstock", "InStock" and "OnBackOrder" classify as stated. -/
theorem availability_classification :
    (∀ s : String,
      (isAvailableOf s = true ↔
        "instock".data <:+: (lowerStr s).data ∨
          "backorder".data <:+: (lowerStr s).data)
      ∧ isAvailableOf s = isAvailableP2 s)
    ∧ isAvailableOf "outofstock" = false
    ∧ isAvailableOf "InStock" = true
    ∧ isAvailableOf "OnBackOrder" = true := by
  refine ⟨fun s => ⟨?_, ?_⟩, by decide, by decide, by decide⟩
  · simp [isAvailableOf, strIncludes, containsSub_iff]
  · simp [isAvailableOf, isAvailableP2, Bool.or_comm]

/-- C2: `retry` run with an operation that fails exactly `k < n` times and
then succeeds returns the success value after `k + 1` invocations with `k`
sleeps of `d`; run with an always-failing operation it invokes the
operation exactly `n` times, sleeps `d` between consecutive invocations
(so `n - 1` times, none after the last), and propagates the final
invocation's error. -/
theorem withRetry_spec :
    (∀ {α : Type} (op : Nat → Except JsError α) (n d k : Nat) (a : α),
      k < n → (∀ j, j < k → ∃ e, op j = .error e) → op k = .ok a →
      retry op n d = (some (.ok a), k + 1, List.replicate k d))
    ∧ (∀ {α : Type} (op : Nat → Except JsError α) (n d : Nat) (f : Nat → JsError),
      1 ≤ n → (∀ j, op j = .error (f j)) →
      retry op n d = (some (.error (f (n - 1))), n, List.replicate (n - 1) d)) := by
  constructor
  · intro α op n d k a hk hfail hok
    have := retryFrom_success op d k n 0 a hk
      (fun j hj => by simpa using hfail j hj) (by simpa using hok)
    simpa [retry] using this
  · intro α op n d f hn hf
    have := retryFrom_exhaust op d f hf n 0 hn
    simpa [retry] using this

/-- Operation for the C2 witness: fails on the first two invocations, then
succeeds. -/
def opEventual : Nat → Except JsError Nat :=
  fun i => if i < 2 then .error (newError (toString i)) else .ok 9

/-- Operation for the C2 witness: fails on every invocation. -/
def opNever : Nat → Except JsError Nat :=
  fun i => .error (newError (toString i))

/-- Witness for C2: concrete runs of both branches of `withRetry_spec`. -/
theorem withRetry_spec_witness :
    retry opEventual 3 7 = (some (.ok 9), 3, [7, 7])
    ∧ retry opNever 4 7 = (some (.error (newError "3")), 4, [7, 7, 7]) := by
  constructor
  · have := withRetry_spec.1 opEventual 3 7 2 9 (by decide)
      (fun j hj => ⟨newError (toString j), by simp [opEventual, hj]⟩) rfl
    simpa using this
  · have := withRetry_spec.2 opNever 4 7 (fun i => newError (toString i))
      (by decide) (fun j => rfl)
    simpa using this

/-- C5: with any required configuration value absent or falsy, the first
main.js handler returns a 500 response whose body names every missing key,
with an empty event trace: no browser or pipeline work is attempted and
nothing is retried. -/
theorem config_fast_fail (env : Env) (o : OracleV1) (h : missingVars env ≠ []) :
    mainV1 env o =
      ({ statusCode := 500,
         body := .plain ("Missing environment variables: " ++
           String.intercalate ", " (missingVars env)) }, []) := by
  simp only [mainV1, if_neg h]

/-- Environment for witnesses: all four storage values present, no debug
flag. -/
def envFull : Env :=
  { APPWRITE_ENDPOINT := some "https://aw.example", APPWRITE_PROJECT_ID := some "proj",
    APPWRITE_API_KEY := some "key", APPWRITE_BUCKET_ID := some "bucket",
    PUPPETEER_EXECUTABLE_PATH := none, NODE_ENV := none }

/-- Environment for witnesses: one required value unset, one set but
empty. -/
def envMissing : Env :=
  { APPWRITE_ENDPOINT := some "https://aw.example", APPWRITE_PROJECT_ID := some "",
    APPWRITE_API_KEY := none, APPWRITE_BUCKET_ID := some "bucket",
    PUPPETEER_EXECUTABLE_PATH := none, NODE_ENV := none }

/-- V1 oracle for witnesses: every collaborator call succeeds. -/
def oracleAllOk : OracleV1 :=
  { chromiumInstalled := true, installOk := .ok (), launch := .ok (),
    goto := fun _ => .ok { status := 200, statusText := "OK" },
    waitForSelector := fun _ => .ok (),
    evalAvailability := fun _ => .ok "http://schema.org/InStock",
    evalPrice := fun _ => .ok "849.99",
    screenshot := fun _ => .ok (), upload := fun _ => .ok "file1",
    errScreenshot := fun _ => .ok (), errUpload := fun _ => .ok "efile",
    timestamp := fun _ => "2026-10-11T00:00:00.000Z", execTime := 42 }

/-- Witness for C5: the concrete environment missing `APPWRITE_PROJECT_ID`
(empty) and `APPWRITE_API_KEY` (unset) is rejected naming both, with no
work attempted. -/
theorem config_fast_fail_witness :
    mainV1 envMissing oracleAllOk =
      ({ statusCode := 500,
         body := .plain
           "Missing environment variables: APPWRITE_PROJECT_ID, APPWRITE_API_KEY" },
       []) := by
  have := config_fast_fail envMissing oracleAllOk (by decide)
  simpa using this

/-- C10: the reported missing-key list of the entries-based check equals
the key-filter check of part_005: exactly the required keys whose value is
absent or falsy, in declaration order; membership is characterised
accordingly. -/
theorem missing_keys_exact :
    ∀ env : Env,
      missingVars env = missingVarsP5 env
      ∧ (∀ k, k ∈ missingVars env ↔ k ∈ requiredKeys ∧ truthy (envLookup env k) = false) := by
  intro env
  have hmain : missingVars env = missingVarsP5 env := by
    simp only [missingVars, requiredEntries, missingVarsP5, requiredKeys]
    cases h1 : truthy env.APPWRITE_ENDPOINT <;>
      cases h2 : truthy env.APPWRITE_PROJECT_ID <;>
        cases h3 : truthy env.APPWRITE_API_KEY <;>
          cases h4 : truthy env.APPWRITE_BUCKET_ID <;>
            simp [List.filter, List.map, envLookup, h1, h2, h3, h4]
  refine ⟨hmain, fun k => ?_⟩
  rw [hmain]
  simp only [missingVarsP5, List.mem_filter, Bool.not_eq_true']

/-- Event traces of a single V1 attempt body never mention the browser
close. -/
theorem attemptBody_no_close (o : OracleV1) (i : Nat) :
    EventV1.browserClose ∉ (attemptBody o i).2 := by
  unfold attemptBody
  repeat' split
  all_goals simp

/-- Event traces of the V1 error-evidence block never mention the browser
close. -/
theorem errorEvidence_no_close (o : OracleV1) (i : Nat) :
    EventV1.browserClose ∉ errorEvidence o i := by
  unfold errorEvidence
  split <;> simp

/-- The retried `getProductData` never closes the browser itself. -/
theorem gpdAux_no_close (o : OracleV1) :
    ∀ fuel i, EventV1.browserClose ∉ (getProductDataAux o i fuel).2 := by
  intro fuel
  induction fuel with
  | zero => intro i; simp [getProductDataAux]
  | succ f ih =>
    intro i
    simp only [getProductDataAux]
    split
    · simp [attemptBody_no_close o i]
    · split
      · simp [attemptBody_no_close o i, errorEvidence_no_close o i, ih (i + 1)]
      · simp [attemptBody_no_close o i, errorEvidence_no_close o i]

/-- Whether the V1 handler got past Chromium provisioning. -/
def chromiumReady (o : OracleV1) : Bool :=
  o.chromiumInstalled || Except.isOk o.installOk

/-- Whether a V1 run acquired a browser session: configuration present,
Chromium available, and the launch call succeeded. -/
def sessionAcquiredV1 (env : Env) (o : OracleV1) : Bool :=
  decide (missingVars env = []) && chromiumReady o && Except.isOk o.launch

/-- Shape of the V1 event trace, correlated with session acquisition: a
run that acquired the browser emits `launch`, the pipeline events and a
final `browserClose`; a run that did not acquire it emits no
`browserClose` (the trace is empty or the failed launch alone). -/
theorem mainV1_trace_acquired (env : Env) (o : OracleV1) :
    (sessionAcquiredV1 env o = true
      ∧ (mainV1 env o).2 = .launch :: (getProductDataV1 o).2 ++ [.browserClose])
    ∨ (sessionAcquiredV1 env o = false
      ∧ ((mainV1 env o).2 = [] ∨ (mainV1 env o).2 = [.launch])) := by
  unfold mainV1 sessionAcquiredV1 chromiumReady
  by_cases hm : missingVars env = []
  · simp only [if_pos hm, hm, decide_True, Bool.true_and]
    cases hc : o.chromiumInstalled
    · cases hi : o.installOk
      · simp [Except.isOk, Except.toBool]
      · cases hl : o.launch
        · simp [Except.isOk, Except.toBool]
        · cases hr : (getProductDataV1 o).1 <;> simp [Except.isOk, Except.toBool, hr]
    · cases hl : o.launch
      · simp [Except.isOk, Except.toBool]
      · cases hr : (getProductDataV1 o).1 <;> simp [Except.isOk, Except.toBool, hr]
  · simp [hm]

/-- C3: in every V1 run, for every combination of collaborator outcomes
(failures injected at launch, navigation, extraction, evidence capture or
retry exhaustion included), the browser session is closed exactly once
when it was acquired, and never otherwise — on every exit path, the normal
return included. -/
theorem session_release_once (env : Env) (o : OracleV1) :
    List.count EventV1.browserClose (mainV1 env o).2 =
      if sessionAcquiredV1 env o then 1 else 0 := by
  have hgpd : EventV1.browserClose ∉ (getProductDataV1 o).2 :=
    gpdAux_no_close o MAX_RETRIES 0
  rcases mainV1_trace_acquired env o with ⟨hs, htr⟩ | ⟨hs, htr | htr⟩ <;>
    rw [hs, htr] <;>
      simp [List.count_cons, List.count_append, List.count_eq_zero.mpr hgpd]

/-- A navigation response with a non-200 status makes the V1 attempt body
throw the `HTTP <status>: <statusText>` error immediately: its trace holds
the navigation alone. -/
theorem attemptBody_non200 (o : OracleV1) (i : Nat) (resp : NavResponse)
    (hg : o.goto i = .ok resp) (hs : resp.status ≠ 200) :
    attemptBody o i =
      (.error (newError ("HTTP " ++ toString resp.status ++ ": " ++ resp.statusText)),
       [.goto i]) := by
  unfold attemptBody
  rw [hg]
  simp [hs]

/-- An availability-extraction event carries the number of the attempt
whose body issued it. -/
theorem attemptBody_evalAvail_mem (o : OracleV1) (i j : Nat)
    (h : EventV1.evalAvail i ∈ (attemptBody o j).2) : i = j := by
  unfold attemptBody at h
  repeat' split at h
  all_goals simp_all

/-- If attempt `i` does not issue an availability extraction, no run of
the retried `getProductData` does so for attempt `i` either. -/
theorem gpd_evalAvail_bound (o : OracleV1) (i : Nat)
    (hi : EventV1.evalAvail i ∉ (attemptBody o i).2) :
    ∀ fuel j, EventV1.evalAvail i ∉ (getProductDataAux o j fuel).2 := by
  intro fuel
  induction fuel with
  | zero => intro j; simp [getProductDataAux]
  | succ f ih =>
    intro j
    have hj : EventV1.evalAvail i ∉ (attemptBody o j).2 := by
      by_cases hij : i = j
      · subst hij; exact hi
      · intro hmem; exact hij (attemptBody_evalAvail_mem o i j hmem)
    have herr : EventV1.evalAvail i ∉ errorEvidence o j := by
      unfold errorEvidence; split <;> simp
    simp only [getProductDataAux]
    split
    · simp [hj]
    · split
      · simp [hj, herr, ih (j + 1)]
      · simp [hj, herr]

/-- C6: when navigation on attempt `i` completes with a status other than
200, the attempt raises the unexpected-status error (so extraction, the
screenshot and the upload are skipped for that attempt), and no run of the
V1 handler ever issues the availability extraction on attempt `i`. -/
theorem non200_skips_extraction (env : Env) (o : OracleV1) (i : Nat)
    (resp : NavResponse) (hg : o.goto i = .ok resp) (hs : resp.status ≠ 200) :
    attemptBody o i =
      (.error (newError ("HTTP " ++ toString resp.status ++ ": " ++ resp.statusText)),
       [.goto i])
    ∧ EventV1.evalAvail i ∉ (mainV1 env o).2 := by
  have hab := attemptBody_non200 o i resp hg hs
  refine ⟨hab, ?_⟩
  have hi : EventV1.evalAvail i ∉ (attemptBody o i).2 := by rw [hab]; simp
  have hgpd : EventV1.evalAvail i ∉ (getProductDataV1 o).2 :=
    gpd_evalAvail_bound o i hi MAX_RETRIES 0
  rcases mainV1_trace_acquired env o with ⟨_, htr⟩ | ⟨_, htr | htr⟩ <;>
    rw [htr] <;> simp [hgpd]

/-- V1 oracle for the C6 witness: navigation resolves with a 404 on every
attempt. -/
def oracle404 : OracleV1 :=
  { oracleAllOk with goto := fun _ => .ok { status := 404, statusText := "Not Found" } }

/-- Witness for C6: with every navigation resolving 404, attempt 0 raises
`HTTP 404: Not Found` and the whole run never extracts availability on
attempt 0. -/
theorem non200_skips_extraction_witness :
    attemptBody oracle404 0 =
      (.error (newError "HTTP 404: Not Found"), [.goto 0])
    ∧ EventV1.evalAvail 0 ∉ (mainV1 envFull oracle404).2 := by
  have := non200_skips_extraction envFull oracle404 0
    { status := 404, statusText := "Not Found" } rfl (by decide)
  simpa using this

/-- A V1 attempt body succeeds only with data taken verbatim from the
attempt's own extraction, upload and clock outcomes, with the availability
flag derived from the extracted string. -/
theorem attemptBody_ok (o : OracleV1) (i : Nat) (d : ProductData)
    (h : (attemptBody o i).1 = .ok d) :
    o.evalAvailability i = .ok d.availability ∧ o.evalPrice i = .ok d.price ∧
    o.upload i = .ok d.screenshotId ∧ d.isAvailable = isAvailableOf d.availability ∧
    d.timestamp = o.timestamp i := by
  unfold attemptBody at h
  repeat' split at h
  all_goals try cases h
  all_goals simp_all

/-- The retried `getProductData` succeeds only with the data of some
successful attempt body. -/
theorem gpdAux_ok (o : OracleV1) :
    ∀ fuel j d, (getProductDataAux o j fuel).1 = .ok d →
      ∃ i, (attemptBody o i).1 = .ok d := by
  intro fuel
  induction fuel with
  | zero => intro j d h; simp [getProductDataAux] at h
  | succ f ih =>
    intro j d h
    simp only [getProductDataAux] at h
    split at h
    · next heq => exact ⟨j, by simp_all⟩
    · split at h
      · exact ih (j + 1) d h
      · simp_all

/-- A 200 response of the V1 handler carries a success body holding the
pipeline's extracted data. -/
theorem mainV1_success (env : Env) (o : OracleV1)
    (h : (mainV1 env o).1.statusCode = 200) :
    ∃ d, (mainV1 env o).1.body = .success d o.execTime ∧
      (getProductDataV1 o).1 = .ok d := by
  unfold mainV1 at h ⊢
  by_cases hm : missingVars env = []
  · simp only [if_pos hm] at h ⊢
    cases hc : o.chromiumInstalled <;> simp only [hc] at h ⊢
    · cases hi : o.installOk <;> simp only [hi] at h ⊢
      · simp at h
      · cases hl : o.launch <;> simp only [hl] at h ⊢
        · simp at h
        · cases hr : (getProductDataV1 o).1 <;> simp_all
    · cases hl : o.launch <;> simp only [hl] at h ⊢
      · simp at h
      · cases hr : (getProductDataV1 o).1 <;> simp_all
  · simp [hm] at h

/-- C4 (amended): in the retrying main.js pipeline a success-status report
is only ever returned with every required field taken from one successful
extraction attempt — availability, price, screenshot id and timestamp all
come from that attempt's collaborator outcomes and the availability flag
is derived from the extracted string; no default or empty stand-in is
substituted.  (The part_002 variant violates the original claim, see its
counterexample.) -/
theorem success_requires_fields (env : Env) (o : OracleV1)
    (h : (mainV1 env o).1.statusCode = 200) :
    ∃ d i, (mainV1 env o).1.body = .success d o.execTime
      ∧ o.evalAvailability i = .ok d.availability
      ∧ o.evalPrice i = .ok d.price
      ∧ o.upload i = .ok d.screenshotId
      ∧ d.isAvailable = isAvailableOf d.availability
      ∧ d.timestamp = o.timestamp i := by
  obtain ⟨d, hbody, hok⟩ := mainV1_success env o h
  obtain ⟨i, hab⟩ := gpdAux_ok o MAX_RETRIES 0 d hok
  obtain ⟨h1, h2, h3, h4, h5⟩ := attemptBody_ok o i d hab
  exact ⟨d, i, hbody, h1, h2, h3, h4, h5⟩

/-- Witness for the amended C4: the all-success V1 run returns 200 and its
body's fields come from a successful attempt. -/
theorem success_requires_fields_witness :
    (mainV1 envFull oracleAllOk).1.statusCode = 200
    ∧ ∃ d i, (mainV1 envFull oracleAllOk).1.body = .success d oracleAllOk.execTime
      ∧ oracleAllOk.evalAvailability i = .ok d.availability
      ∧ oracleAllOk.evalPrice i = .ok d.price
      ∧ oracleAllOk.upload i = .ok d.screenshotId
      ∧ d.isAvailable = isAvailableOf d.availability
      ∧ d.timestamp = oracleAllOk.timestamp i :=
  ⟨by decide, success_requires_fields envFull oracleAllOk (by decide)⟩

/-- P2 oracle for the C4 counterexample: every collaborator call succeeds
except the availability extraction. -/
def oracleP2Partial : OracleP2 :=
  { chromiumInstalled := true, installOk := .ok (), launch := .ok (),
    gotoNav := .ok (),
    evalAvailability := .error (newError "No element found for selector"),
    screenshot := .ok (), upload := .ok "file2",
    errScreenshot := .ok (), errUpload := .ok "ef", execTime := 7 }

/-- Counterexample to C4 as stated: in the part_002 variant a run whose
availability extraction fails still returns a success-status (200) report,
with the availability field replaced by the empty-string default and
`isAvailable` by `false`. -/
theorem partial_success_counterexample :
    oracleP2Partial.evalAvailability = .error (newError "No element found for selector")
    ∧ mainP2 envFull oracleP2Partial =
        { statusCode := 200, body := .success false "" 7 "file2" } := by
  exact ⟨rfl, by decide⟩

/-- The attempt body reads none of the error-evidence collaborators. -/
theorem attemptBody_err_invariant (o : OracleV1) (f : Nat → Except JsError Unit)
    (g : Nat → Except JsError String) (i : Nat) :
    attemptBody { o with errScreenshot := f, errUpload := g } i = attemptBody o i := rfl

/-- The value `getProductData` completes with does not depend on the
outcomes of the error-evidence screenshot or its upload. -/
theorem gpdAux_result_invariant (o : OracleV1) (f : Nat → Except JsError Unit)
    (g : Nat → Except JsError String) :
    ∀ fuel i,
      (getProductDataAux { o with errScreenshot := f, errUpload := g } i fuel).1 =
        (getProductDataAux o i fuel).1 := by
  intro fuel
  induction fuel with
  | zero => intro i; rfl
  | succ n ih =>
    intro i
    simp only [getProductDataAux, attemptBody_err_invariant]
    cases h : (attemptBody o i).1
    · by_cases hlt : i < MAX_RETRIES - 1 <;> simp [h, hlt, ih (i + 1)]
    · simp [h]

/-- C7: the response of a V1 run does not depend on the outcomes of the
error-path screenshot or its upload (their failures are caught, logged and
swallowed), and a failing pipeline is always reported with the original
triggering error's message, never a screenshot or upload error. -/
theorem error_evidence_best_effort (env : Env) (o : OracleV1)
    (f : Nat → Except JsError Unit) (g : Nat → Except JsError String) :
    (mainV1 env { o with errScreenshot := f, errUpload := g }).1 = (mainV1 env o).1
    ∧ (∀ e, sessionAcquiredV1 env o = true → (getProductDataV1 o).1 = .error e →
        (mainV1 env o).1 =
          { statusCode := 500,
            body := .failure e.message (stackGate env e) o.execTime }) := by
  constructor
  · unfold mainV1
    by_cases hm : missingVars env = []
    · simp only [if_pos hm]
      have hres : (getProductDataV1 { o with errScreenshot := f, errUpload := g }).1 =
          (getProductDataV1 o).1 := gpdAux_result_invariant o f g MAX_RETRIES 0
      cases hc : o.chromiumInstalled <;>
        cases hl : o.launch <;>
          cases hi : o.installOk <;>
            cases hr : (getProductDataV1 o).1 <;>
              simp_all
    · simp [hm]
  · intro e hacq hgpd
    unfold sessionAcquiredV1 chromiumReady at hacq
    simp only [Bool.and_eq_true, Bool.or_eq_true, decide_eq_true_eq] at hacq
    obtain ⟨⟨hm, hchrom⟩, hlaunch⟩ := hacq
    obtain ⟨u, hl⟩ : ∃ u, o.launch = .ok u := by
      cases hl' : o.launch
      · rw [hl'] at hlaunch; simp [Except.isOk, Except.toBool] at hlaunch
      · exact ⟨_, rfl⟩
    unfold mainV1
    simp only [if_pos hm]
    rcases hchrom with hc | hio
    · simp [hc, hl, hgpd]
    · cases hc2 : o.chromiumInstalled
      · obtain ⟨u2, hi⟩ : ∃ u2, o.installOk = .ok u2 := by
          cases hi' : o.installOk
          · rw [hi'] at hio; simp [Except.isOk, Except.toBool] at hio
          · exact ⟨_, rfl⟩
        simp [hi, hl, hgpd]
      · simp [hl, hgpd]

/-- Error-evidence screenshot outcomes that always fail, for the C7
witness. -/
def errShotFail : Nat → Except JsError Unit := fun _ => .error (newError "shot fail")

/-- Error-evidence upload outcomes that always fail, for the C7 witness. -/
def errUpFail : Nat → Except JsError String := fun _ => .error (newError "upload fail")

/-- Witness for C7: a run whose navigation always yields 404 reports the
navigation error, and its response is unchanged when the error screenshot
and its upload are additionally made to fail. -/
theorem error_evidence_best_effort_witness :
    (mainV1 envFull
        { oracle404 with errScreenshot := errShotFail, errUpload := errUpFail }).1 =
      (mainV1 envFull oracle404).1
    ∧ (mainV1 envFull oracle404).1 =
        { statusCode := 500, body := .failure "HTTP 404: Not Found" none 42 } := by
  obtain ⟨hinv, horig⟩ :=
    error_evidence_best_effort envFull oracle404 errShotFail errUpFail
  refine ⟨hinv, ?_⟩
  have h := horig (newError "HTTP 404: Not Found") (by decide) rfl
  rw [h]
  decide

/-- C9 (amended): the first main.js handler includes a stack trace in its
failure body exactly when `NODE_ENV` equals `"development"`; the second
main.js handler (cited lines 538-545) always includes the stack, whatever
the flag. -/
theorem stack_trace_gating :
    (∀ (env : Env) (o : OracleV1) (m : String) (st : Option String) (t : Nat),
      (mainV1 env o).1.body = .failure m st t →
      (st.isSome = true ↔ env.NODE_ENV = some "development"))
    ∧ (∀ (env : Env) (o : OracleV2) (m : String) (st : Option String),
      (mainV2 env o).1.body = .failure m st → st.isSome = true) := by
  constructor
  · intro env o m st t h
    unfold mainV1 at h
    by_cases hm : missingVars env = []
    · simp only [if_pos hm] at h
      cases hc : o.chromiumInstalled <;> simp only [hc] at h
      · cases hi : o.installOk <;> simp only [hi] at h
        · simp at h
        · cases hl : o.launch <;> simp only [hl] at h
          · obtain ⟨-, rfl, -⟩ := h
            unfold stackGate
            by_cases hd : env.NODE_ENV = some "development" <;> simp [hd]
          · cases hr : (getProductDataV1 o).1 <;> simp only [hr] at h
            · obtain ⟨-, rfl, -⟩ := h
              unfold stackGate
              by_cases hd : env.NODE_ENV = some "development" <;> simp [hd]
            · simp at h
      · cases hl : o.launch <;> simp only [hl] at h
        · obtain ⟨-, rfl, -⟩ := h
          unfold stackGate
          by_cases hd : env.NODE_ENV = some "development" <;> simp [hd]
        · cases hr : (getProductDataV1 o).1 <;> simp only [hr] at h
          · obtain ⟨-, rfl, -⟩ := h
            unfold stackGate
            by_cases hd : env.NODE_ENV = some "development" <;> simp [hd]
          · simp at h
    · simp [hm] at h
  · intro env o m st h
    unfold mainV2 at h
    by_cases hm : missingVars env = []
    · simp only [if_pos hm] at h
      cases hb : o.listBuckets <;> simp only [hb] at h
      · simp at h
      · cases hc : o.chromiumInstalled <;> simp only [hc] at h
        · cases hi : o.installOk <;> simp only [hi] at h
          · simp at h
          · cases hl : o.launch <;> simp only [hl] at h
            · obtain ⟨-, rfl⟩ := h
              rfl
            · cases hr : (pipelineV2 o).1 <;> simp only [hr] at h
              · obtain ⟨-, rfl⟩ := h
                rfl
              · simp at h
        · cases hl : o.launch <;> simp only [hl] at h
          · obtain ⟨-, rfl⟩ := h
            rfl
          · cases hr : (pipelineV2 o).1 <;> simp only [hr] at h
            · obtain ⟨-, rfl⟩ := h
              rfl
            · simp at h
    · simp [hm] at h

/-- V2 oracle for the C9 counterexample: the browser launch fails,
everything else succeeds. -/
def oracleV2LaunchFail : OracleV2 :=
  { listBuckets := .ok (), chromiumInstalled := true, installOk := .ok (),
    launch := .error (newError "boom"), gotoNav := fun _ => .ok (),
    waitContent := fun _ => .ok (), evalAvailability := fun _ => .ok "x",
    screenshot := fun _ => .ok (), upload := fun _ => .ok "f",
    errScreenshot := .ok (), errUpload := fun _ => .ok "g", execTime := 3 }

/-- Counterexample to C9 as stated: a failing run of the second main.js
handler with the debug flag unset still carries a stack trace in its
failure body. -/
theorem stack_without_debug_counterexample :
    envFull.NODE_ENV = none
    ∧ (mainV2 envFull oracleV2LaunchFail).1.body =
        .failure "boom" (some "Error: boom") := by
  exact ⟨rfl, by decide⟩

/-- Environment with the debug flag set, for the C9 witness. -/
def envDev : Env := { envFull with NODE_ENV := some "development" }

/-- V1 oracle for the C9 witness: the browser launch fails. -/
def oracleV1LaunchFail : OracleV1 :=
  { oracleAllOk with launch := .error (newError "boom") }

/-- Witness for the amended C9: concrete failing runs of both handlers,
one with the debug flag set (stack present, flag matches) and the V2 one
with it unset (stack still present). -/
theorem stack_trace_gating_witness :
    ((some "Error: boom" : Option String).isSome = true ↔
      envDev.NODE_ENV = some "development")
    ∧ (some "Error: boom" : Option String).isSome = true := by
  constructor
  · exact stack_trace_gating.1 envDev oracleV1LaunchFail "boom" (some "Error: boom") 42
      (by decide)
  · exact stack_trace_gating.2 envFull oracleV2LaunchFail "boom" (some "Error: boom")
      (by decide)

/-- The retry loop never invokes its operation more often than the number
of iterations it is permitted. -/
theorem retryFrom_calls_le {α : Type} (op : Nat → Except JsError α) (d : Nat) :
    ∀ r i, (retryFrom op d i r).2.1 ≤ r := by
  intro r
  induction r with
  | zero => intro i; simp [retryFrom]
  | succ n ih =>
    intro i
    simp only [retryFrom]
    cases h : op i
    · by_cases h0 : n = 0
      · simp [h0]
      · have := ih (i + 1)
        simp only [if_neg h0]
        omega
    · simp

/-- The invocation count `retryResult` reports is that of the underlying
`retry` run. -/
theorem retryResult_calls {α : Type} (op : Nat → Except JsError α) (a d : Nat) :
    (retryResult op a d).2 = (retry op a d).2.1 := by
  unfold retryResult
  split <;> simp_all

/-- Whether a full `retry` run of the second handler's shape succeeds,
stated on `retryResult`: again a function of the wrapped operation
alone. -/
def stepOk {α : Type} (op : Nat → Except JsError α) : Bool :=
  Except.isOk (retryResult op RETRY_ATTEMPTS RETRY_DELAY_V2).1

/-- A full-budget retried step performs at most `RETRY_ATTEMPTS`
invocations. -/
theorem retryCalls_le {α : Type} (op : Nat → Except JsError α) :
    retryCalls op ≤ RETRY_ATTEMPTS :=
  retryFrom_calls_le op RETRY_DELAY_V2 RETRY_ATTEMPTS 0

/-- Per-step invocation counts of the V2 pipeline: each retried step's
count is the full-budget retry count of that step's own operation when the
step is reached, and 0 otherwise. -/
theorem pipelineV2_counts (o : OracleV2) :
    (pipelineV2 o).2.navigate = retryCalls o.gotoNav
    ∧ (pipelineV2 o).2.extract =
        (if stepOk o.gotoNav && stepOk o.waitContent
         then retryCalls o.evalAvailability else 0)
    ∧ (pipelineV2 o).2.upload =
        (if stepOk o.gotoNav && stepOk o.waitContent && stepOk o.evalAvailability
            && stepOk o.screenshot
         then retryCalls o.upload else 0) := by
  have hage : retryResult ageGateOp RETRY_ATTEMPTS RETRY_DELAY_V2 = (.ok (), 1) := rfl
  unfold pipelineV2 stepOk
  cases hn : (retryResult o.gotoNav RETRY_ATTEMPTS RETRY_DELAY_V2).1
  · simp [hn, mkCounts, retryResult_calls, retryCalls, Except.isOk, Except.toBool]
  · cases hw : (retryResult o.waitContent RETRY_ATTEMPTS RETRY_DELAY_V2).1
    · simp [hn, hw, hage, mkCounts, retryResult_calls, retryCalls, Except.isOk, Except.toBool]
    · cases he : (retryResult o.evalAvailability RETRY_ATTEMPTS RETRY_DELAY_V2).1
      · simp [hn, hw, he, hage, mkCounts, retryResult_calls, retryCalls, Except.isOk, Except.toBool]
      · cases hs : (retryResult o.screenshot RETRY_ATTEMPTS RETRY_DELAY_V2).1
        · simp [hn, hw, he, hs, hage, mkCounts, retryResult_calls, retryCalls,
            Except.isOk, Except.toBool]
        · cases hu : (retryResult o.upload RETRY_ATTEMPTS RETRY_DELAY_V2).1 <;>
            simp [hn, hw, he, hs, hu, hage, mkCounts, retryResult_calls, retryCalls,
              Except.isOk, Except.toBool]

/-- Whether a V2 run got through configuration validation, connection
validation, Chromium provisioning and the browser launch. -/
def setupOkV2 (env : Env) (o : OracleV2) : Bool :=
  decide (missingVars env = []) && Except.isOk o.listBuckets
    && (o.chromiumInstalled || Except.isOk o.installOk) && Except.isOk o.launch

/-- C8: in every V2 run the retry wrapper is applied independently to
navigation, extraction and evidence upload — each reached step's
invocation count is a function of that step's own operation outcomes alone
(its full-budget retry count), unreached steps are never invoked, and no
step ever exceeds its own `RETRY_ATTEMPTS` budget, however many attempts
the other steps consumed. -/
theorem retry_budgets_independent (env : Env) (o : OracleV2) :
    ((mainV2 env o).2.navigate =
      if setupOkV2 env o then retryCalls o.gotoNav else 0)
    ∧ ((mainV2 env o).2.extract =
      if setupOkV2 env o && stepOk o.gotoNav && stepOk o.waitContent
      then retryCalls o.evalAvailability else 0)
    ∧ ((mainV2 env o).2.upload =
      if setupOkV2 env o && stepOk o.gotoNav && stepOk o.waitContent
          && stepOk o.evalAvailability && stepOk o.screenshot
      then retryCalls o.upload else 0)
    ∧ (mainV2 env o).2.navigate ≤ RETRY_ATTEMPTS
    ∧ (mainV2 env o).2.extract ≤ RETRY_ATTEMPTS
    ∧ (mainV2 env o).2.upload ≤ RETRY_ATTEMPTS := by
  obtain ⟨hc1, hc2, hc3⟩ := pipelineV2_counts o
  have hmain : ((mainV2 env o).2.navigate =
      if setupOkV2 env o then retryCalls o.gotoNav else 0)
    ∧ ((mainV2 env o).2.extract =
      if setupOkV2 env o && stepOk o.gotoNav && stepOk o.waitContent
      then retryCalls o.evalAvailability else 0)
    ∧ ((mainV2 env o).2.upload =
      if setupOkV2 env o && stepOk o.gotoNav && stepOk o.waitContent
          && stepOk o.evalAvailability && stepOk o.screenshot
      then retryCalls o.upload else 0) := by
    unfold mainV2 setupOkV2
    by_cases hm : missingVars env = []
    · simp only [if_pos hm, hm, decide_True, Bool.true_and]
      cases hb : o.listBuckets
      · simp [Except.isOk, Except.toBool, CountsV2.zero]
      · cases hc : o.chromiumInstalled <;> simp only [hc]
        · cases hi : o.installOk
          · simp [Except.isOk, Except.toBool, CountsV2.zero]
          · cases hl : o.launch
            · simp [Except.isOk, Except.toBool, CountsV2.zero]
            · cases hr : (pipelineV2 o).1
              · cases hes : o.errScreenshot <;>
                  simp_all [Except.isOk, Except.toBool]
              · simp_all [Except.isOk, Except.toBool]
        · cases hl : o.launch
          · simp [Except.isOk, Except.toBool, CountsV2.zero]
          · cases hr : (pipelineV2 o).1
            · cases hes : o.errScreenshot <;>
                simp_all [Except.isOk, Except.toBool]
            · simp_all [Except.isOk, Except.toBool]
    · simp [hm, CountsV2.zero]
  obtain ⟨h1, h2, h3⟩ := hmain
  refine ⟨h1, h2, h3, ?_, ?_, ?_⟩
  · rw [h1]; split
    · exact retryCalls_le o.gotoNav
    · exact Nat.zero_le _
  · rw [h2]; split
    · exact retryCalls_le o.evalAvailability
    · exact Nat.zero_le _
  · rw [h3]; split
    · exact retryCalls_le o.upload
    · exact Nat.zero_le _

end ATAT
